import Mathlib

/-!
# Verification of the mydoc-mcp document server

A shallow embedding, in Lean 4, of the parts of the mydoc-mcp repository
(a Python MCP document server) that its specification makes claims about:

* `src/database/models.py` — the `Document`, `SearchIndex` and `SearchCache`
  data models, including content hashing and relevance scoring, and the
  SQLite schema constraints;
* `src/database/database_manager.py` — keyword extraction and indexing,
  `index_document` and `delete_document`;
* `src/database/queries.py` — the query layer (search cache lookup,
  index/metadata/document deletion) and the set of methods the
  `DocumentQueries` class actually defines;
* `src/tools/base.py` — JSON-schema parameter validation;
* `src/tools/searchDocuments.py`, `src/tools/getDocument.py`,
  `src/tools/indexDocument.py` — the three MCP tools;
* `src/watcher/event_handler.py`, `src/watcher/file_watcher.py` — debounced
  event coalescing and the watcher dispatch handlers.

Python `str` values are embedded as Lean `String`, byte strings as
`List Nat` (each element < 256), floats as `Rat` (exact arithmetic; every
comparison proved here is robust to rounding), timestamps as `Nat`.
-/

namespace MyDoc

/-! ## Python string primitives

Helpers mirroring the Python string operations the source uses:
`str.lower`, `str.split()`, `str.encode("utf-8")`, slicing, and
membership tests. -/

/-- ASCII lowercasing of one character, as Python `str.lower` acts on the
ASCII range (the repository only ever lowercases ASCII keyword/content
text in the places modelled here). -/
def asciiLowerChar (c : Char) : Char :=
  if 'A' ≤ c ∧ c ≤ 'Z' then Char.ofNat (c.toNat + 32) else c

/-- `s.lower()` on the ASCII range. -/
def pyLower (s : String) : String :=
  String.mk (s.data.map asciiLowerChar)

/-- Python whitespace for `str.split()` with no argument:
space, tab, newline, carriage return, vertical tab, form feed. -/
def isPySpace (c : Char) : Bool :=
  c = ' ' ∨ c = '\t' ∨ c = '\n' ∨ c = '\r' ∨ c = Char.ofNat 11 ∨ c = Char.ofNat 12

/-- Splits a character list into maximal runs of characters satisfying
`keep`, discarding the separators.  `acc` carries the current run in
reverse order. -/
def runsAux (keep : Char → Bool) : List Char → List Char → List (List Char)
  | [], acc => if acc.isEmpty then [] else [acc.reverse]
  | c :: cs, acc =>
    if keep c then runsAux keep cs (c :: acc)
    else if acc.isEmpty then runsAux keep cs []
    else acc.reverse :: runsAux keep cs []

/-- `s.split()` — split on runs of whitespace, dropping empty pieces. -/
def pySplit (s : String) : List String :=
  (runsAux (fun c => ¬ isPySpace c) s.data []).map String.mk

/-- UTF-8 encoding of one unicode scalar value, as `str.encode("utf-8")`
produces it (RFC 3629). -/
def utf8EncodeChar (c : Char) : List Nat :=
  let n := c.toNat
  if n < 128 then [n]
  else if n < 2048 then [192 + n / 64, 128 + n % 64]
  else if n < 65536 then [224 + n / 4096, 128 + n / 64 % 64, 128 + n % 64]
  else [240 + n / 262144, 128 + n / 4096 % 64, 128 + n / 64 % 64, 128 + n % 64]

/-- `s.encode("utf-8")` as a byte list. -/
def utf8Bytes (s : String) : List Nat :=
  s.data.flatMap utf8EncodeChar

/-- `len(s.encode("utf-8"))`. -/
def utf8ByteLength (s : String) : Nat :=
  (utf8Bytes s).length

/-- `s[:n]` — the first `n` characters of a Python string. -/
def pyTake (s : String) (n : Nat) : String :=
  String.mk (s.data.take n)

/-- Does `sub` occur as a contiguous block of `l`?  Executable helper for
Python substring membership. -/
def containsSeq (sub : List Char) : List Char → Bool
  | [] => sub.isEmpty
  | c :: cs => List.isPrefixOf sub (c :: cs) || containsSeq sub cs

/-- `sub in s` — Python substring membership. -/
def pyContains (s sub : String) : Bool :=
  containsSeq sub.data s.data

/-- `s.startswith(p)`. -/
def pyStartsWith (s p : String) : Bool :=
  List.isPrefixOf p.data s.data

/-- `s.strip()` — remove leading and trailing Python whitespace. -/
def pyStrip (s : String) : String :=
  String.mk (((s.data.dropWhile isPySpace).reverse.dropWhile isPySpace).reverse)

/-! ## SHA-256

`models.py` computes `hashlib.sha256(content.encode("utf-8")).hexdigest()`.
This section embeds SHA-256 (FIPS 180-4) over byte lists, with 32-bit words
as `Nat` reduced modulo `2 ^ 32`. -/

/-- Reduce to a 32-bit word. -/
def w32 (n : Nat) : Nat := n % 4294967296

/-- Right rotation of a 32-bit word by `k` (for `x < 2 ^ 32`, `k ≤ 32`). -/
def rotr32 (x k : Nat) : Nat :=
  x / 2 ^ k + x % 2 ^ k * 2 ^ (32 - k)

/-- σ₀ — small sigma 0. -/
def ssig0 (x : Nat) : Nat :=
  Nat.xor (rotr32 x 7) (Nat.xor (rotr32 x 18) (x / 2 ^ 3))

/-- σ₁ — small sigma 1. -/
def ssig1 (x : Nat) : Nat :=
  Nat.xor (rotr32 x 17) (Nat.xor (rotr32 x 19) (x / 2 ^ 10))

/-- Σ₀ — big sigma 0. -/
def bsig0 (x : Nat) : Nat :=
  Nat.xor (rotr32 x 2) (Nat.xor (rotr32 x 13) (rotr32 x 22))

/-- Σ₁ — big sigma 1. -/
def bsig1 (x : Nat) : Nat :=
  Nat.xor (rotr32 x 6) (Nat.xor (rotr32 x 11) (rotr32 x 25))

/-- Ch(x,y,z) = (x ∧ y) ⊕ (¬x ∧ z), complement taken in 32 bits. -/
def chFn (x y z : Nat) : Nat :=
  Nat.xor (Nat.land x y) (Nat.land (Nat.xor x 4294967295) z)

/-- Maj(x,y,z). -/
def majFn (x y z : Nat) : Nat :=
  Nat.xor (Nat.land x y) (Nat.xor (Nat.land x z) (Nat.land y z))

/-- The 64 SHA-256 round constants (FIPS 180-4 §4.2.2, in decimal). -/
def sha256K : List Nat :=
  [1116352408, 1899447441, 3049323471, 3921009573,
   961987163, 1508970993, 2453635748, 2870763221,
   3624381080, 310598401, 607225278, 1426881987,
   1925078388, 2162078206, 2614888103, 3248222580,
   3835390401, 4022224774, 264347078, 604807628,
   770255983, 1249150122, 1555081692, 1996064986,
   2554220882, 2821834349, 2952996808, 3210313671,
   3336571891, 3584528711, 113926993, 338241895,
   666307205, 773529912, 1294757372, 1396182291,
   1695183700, 1986661051, 2177026350, 2456956037,
   2730485921, 2820302411, 3259730800, 3345764771,
   3516065817, 3600352804, 4094571909, 275423344,
   430227734, 506948616, 659060556, 883997877,
   958139571, 1322822218, 1537002063, 1747873779,
   1955562222, 2024104815, 2227730452, 2361852424,
   2428436474, 2756734187, 3204031479, 3329325298]

/-- The eight 32-bit working registers / hash state. -/
structure H8 where
  a : Nat
  b : Nat
  c : Nat
  d : Nat
  e : Nat
  f : Nat
  g : Nat
  h : Nat
deriving Repr, DecidableEq

/-- Initial hash value H⁽⁰⁾ (FIPS 180-4 §5.3.3, in decimal). -/
def sha256init : H8 :=
  ⟨1779033703, 3144134277, 1013904242, 2773480762,
   1359893119, 2600822924, 528734635, 1541459225⟩

/-- One compression round with round constant `k` and schedule word `w`. -/
def sha256round (st : H8) (k w : Nat) : H8 :=
  let t1 := w32 (st.h + bsig1 st.e + chFn st.e st.f st.g + k + w)
  let t2 := w32 (bsig0 st.a + majFn st.a st.b st.c)
  ⟨w32 (t1 + t2), st.a, st.b, st.c, w32 (st.d + t1), st.e, st.f, st.g⟩

/-- Group bytes four at a time into big-endian 32-bit words. -/
def bytesToWords : List Nat → List Nat
  | b0 :: b1 :: b2 :: b3 :: rest =>
    (((b0 * 256 + b1) * 256 + b2) * 256 + b3) :: bytesToWords rest
  | _ => []

/-- The next message-schedule word, given the previous words most recent
first: `W(t) = σ₁(W(t-2)) + W(t-7) + σ₀(W(t-15)) + W(t-16) mod 2 ^ 32`. -/
def nextScheduleWord (rev : List Nat) : Nat :=
  w32 (ssig1 (rev.getD 1 0) + rev.getD 6 0 + ssig0 (rev.getD 14 0) + rev.getD 15 0)

/-- Extend the schedule by `n` words (`rev` holds the words so far, most
recent first); returns the full schedule in order. -/
def extendSchedule : Nat → List Nat → List Nat
  | 0, rev => rev.reverse
  | n + 1, rev => extendSchedule n (nextScheduleWord rev :: rev)

/-- Compress one 64-byte block into the running hash state. -/
def sha256block (st : H8) (block : List Nat) : H8 :=
  let ws := extendSchedule 48 (bytesToWords block).reverse
  let r := (sha256K.zip ws).foldl (fun s kw => sha256round s kw.1 kw.2) st
  ⟨w32 (st.a + r.a), w32 (st.b + r.b), w32 (st.c + r.c), w32 (st.d + r.d),
   w32 (st.e + r.e), w32 (st.f + r.f), w32 (st.g + r.g), w32 (st.h + r.h)⟩

/-- `count` bytes of `v` in big-endian order. -/
def beBytes : Nat → Nat → List Nat
  | 0, _ => []
  | n + 1, v => beBytes n (v / 256) ++ [v % 256]

/-- SHA-256 padding: append `0x80`, zero bytes to 56 mod 64, then the
message bit length as 8 big-endian bytes. -/
def sha256pad (msg : List Nat) : List Nat :=
  let zeros := (119 - msg.length % 64) % 64
  msg ++ [128] ++ List.replicate zeros 0 ++ beBytes 8 (8 * msg.length)

/-- Split into successive 64-byte chunks (`n` = number of chunks). -/
def chunks64 : Nat → List Nat → List (List Nat)
  | 0, _ => []
  | n + 1, l => l.take 64 :: chunks64 n (l.drop 64)

/-- The final SHA-256 state over a byte message. -/
def sha256state (msg : List Nat) : H8 :=
  let padded := sha256pad msg
  (chunks64 (padded.length / 64) padded).foldl sha256block sha256init

/-- The eight digest words, in output order. -/
def sha256words (msg : List Nat) : List Nat :=
  let st := sha256state msg
  [st.a, st.b, st.c, st.d, st.e, st.f, st.g, st.h]

/-- The sixteen lowercase hex digits, as `hexdigest` uses them. -/
def hexDigitChars : List Char :=
  "0123456789abcdef".data

/-- One hex digit character. -/
def hexNibble (n : Nat) : Char :=
  hexDigitChars.getD n '0'

/-- A 32-bit word as 8 lowercase hex characters, most significant first. -/
def wordHex8 (w : Nat) : List Char :=
  [hexNibble (w / 16 ^ 7 % 16), hexNibble (w / 16 ^ 6 % 16),
   hexNibble (w / 16 ^ 5 % 16), hexNibble (w / 16 ^ 4 % 16),
   hexNibble (w / 16 ^ 3 % 16), hexNibble (w / 16 ^ 2 % 16),
   hexNibble (w / 16 % 16), hexNibble (w % 16)]

/-- `hashlib.sha256(msg).hexdigest()` over a byte message. -/
def sha256hexBytes (msg : List Nat) : String :=
  String.mk ((sha256words msg).flatMap wordHex8)

/-- `hashlib.sha256(s.encode("utf-8")).hexdigest()` — the digest the
repository stores in `Document.file_hash`. -/
def sha256hexdigest (s : String) : String :=
  sha256hexBytes (utf8Bytes s)

/-! ## Path handling

`pathlib.Path(...).name` and `.suffix`, used by `Document.__post_init__`
and `IndexDocumentTool._is_supported_file_type` (POSIX separators). -/

/-- `Path(p).name` — the final path component. -/
def pathName (p : String) : String :=
  String.mk ((runsAux (fun c => c ≠ '/') p.data []).getLastD [])

/-- `Path(p).suffix` — the final extension with its dot, empty when the
name has no interior dot (`rfind` semantics of pathlib: the dot must be
neither the first nor the last character of the name). -/
def pathSuffix (p : String) : String :=
  let rev := (pathName p).data.reverse
  let pre := rev.takeWhile (fun c => c ≠ '.')
  if pre.length = 0 ∨ pre.length = rev.length ∨ pre.length + 1 = rev.length then ""
  else String.mk ('.' :: pre.reverse)

/-- `s.lstrip(".")`. -/
def lstripDots (s : String) : String :=
  String.mk (s.data.dropWhile (fun c => c = '.'))

/-! ## `src/database/models.py` — data models

The `Document`, `SearchIndex` and `SearchCache` dataclasses, and the CHECK
constraints of `DatabaseSchema`.  Optional fields follow the dataclass
defaults; datetimes are `Option Nat` (Python `None` = `none`). -/

/-- The `Document` dataclass (`models.py` lines 18-36). -/
structure Document where
  id : Option Nat := none
  file_path : String := ""
  file_name : String := ""
  content : String := ""
  file_type : String := ""
  file_size : Nat := 0
  file_hash : String := ""
  created_at : Option Nat := none
  modified_at : Option Nat := none
  indexed_at : Option Nat := none
  metadata_json : String := "{}"
deriving Repr, DecidableEq

/-- `Document.calculate_content_hash` —
`hashlib.sha256(self.content.encode("utf-8")).hexdigest()`. -/
def Document.calculate_content_hash (d : Document) : String :=
  sha256hexdigest d.content

/-- `Document.__post_init__` — derive `file_name` and `file_type` from
`file_path` and the content hash from `content`, each only when the field
is still empty (Python truthiness: the empty string is falsy). -/
def documentPostInit (d : Document) : Document :=
  let d1 := if d.file_name = "" ∧ d.file_path ≠ ""
    then { d with file_name := pathName d.file_path } else d
  let d2 := if d1.file_type = "" ∧ d1.file_path ≠ ""
    then { d1 with file_type := lstripDots (pyLower (pathSuffix d1.file_path)) } else d1
  if d2.file_hash = "" ∧ d2.content ≠ ""
    then { d2 with file_hash := d2.calculate_content_hash } else d2

/-- A `search_index` row / the `SearchIndex` dataclass, with its relevance
score as an exact rational (Python uses a float). -/
structure SearchIndexEntry where
  document_id : Nat
  keyword : String
  frequency : Nat
  positions : List Nat
  relevance_score : Rat
deriving Repr, DecidableEq

/-- `SearchIndex.calculate_relevance_score` (`models.py` lines 136-157):
`tf * (1 + min(1.0, frequency / 5.0))` with `tf = frequency /
document_length`; zero for an empty document.  Note: the result is NOT
clamped anywhere in the source. -/
def calculate_relevance_score (frequency : Nat) (document_length : Nat) : Rat :=
  if document_length = 0 then 0
  else
    let tf : Rat := (frequency : Rat) / (document_length : Rat)
    let frequency_boost : Rat := min 1 ((frequency : Rat) / 5)
    tf * (1 + frequency_boost)

/-- The CHECK constraints of `CREATE_SEARCH_INDEX_TABLE` (`models.py`
lines 292-308): `frequency > 0` and
`relevance_score >= 0.0 AND relevance_score <= 1.0`. -/
def searchIndexRowCheck (e : SearchIndexEntry) : Prop :=
  0 < e.frequency ∧ 0 ≤ e.relevance_score ∧ e.relevance_score ≤ 1

instance (e : SearchIndexEntry) : Decidable (searchIndexRowCheck e) := by
  unfold searchIndexRowCheck; infer_instance

/-- A `search_cache` row / the `SearchCache` dataclass.  `results` is the
serialized (JSON) result payload, kept abstract as the exact byte string
stored. -/
structure SearchCacheEntry where
  id : Nat
  query_hash : String
  query_text : String
  results : String
  created_at : Nat
  expires_at : Nat
  hit_count : Nat
deriving Repr, DecidableEq

/-- A `document_metadata` row. -/
structure MetadataRow where
  document_id : Nat
  key : String
  value : String
deriving Repr, DecidableEq

/-- The persistent store: the four tables of `DatabaseSchema`. -/
structure Store where
  documents : List Document
  metadata_rows : List MetadataRow
  index_rows : List SearchIndexEntry
  cache_rows : List SearchCacheEntry
deriving Repr, DecidableEq

/-! ## `src/database/queries.py` — the query layer

Each method is a pure function on `Store`.  SQL row order follows list
order; `fetch_one` takes the first match. -/

/-- The methods the `DocumentQueries` class defines (`queries.py` lines
20-327): calling any other attribute on it raises `AttributeError`. -/
def documentQueriesMethods : List String :=
  ["create_document", "get_document", "get_document_by_path",
   "update_document", "delete_document", "list_documents", "count_documents"]

/-- `DocumentQueries.get_document_by_path` —
`SELECT ... FROM documents WHERE file_path = ?`. -/
def get_document_by_path (s : Store) (file_path : String) : Option Document :=
  s.documents.find? (fun d => d.file_path == file_path)

/-- `DocumentQueries.create_document` — INSERT; the fresh AUTOINCREMENT
rowid is one more than the largest id present. -/
def create_document (s : Store) (d : Document) : Nat × Store :=
  let newId := (s.documents.map (fun x => x.id.getD 0)).foldr max 0 + 1
  (newId, { s with documents := s.documents ++ [{ d with id := some newId }] })

/-- `DocumentQueries.update_document` — UPDATE by id; returns whether a
row matched. -/
def update_document (s : Store) (d : Document) : Store × Bool :=
  (({ s with documents := s.documents.map (fun x => if x.id = d.id then d else x) }),
    s.documents.any (fun x => x.id == d.id))

/-- `DocumentQueries.delete_document` —
`DELETE FROM documents WHERE id = ?`, with the `ON DELETE CASCADE`
foreign keys of the schema removing the document's metadata and index
rows; returns whether a row matched. -/
def queries_delete_document (s : Store) (document_id : Nat) : Store × Bool :=
  (({ s with
      documents := s.documents.filter (fun d => d.id ≠ some document_id),
      metadata_rows := s.metadata_rows.filter (fun m => m.document_id ≠ document_id),
      index_rows := s.index_rows.filter (fun e => e.document_id ≠ document_id) }),
    s.documents.any (fun d => d.id == some document_id))

/-- `SearchQueries.delete_search_index_for_document` —
`DELETE FROM search_index WHERE document_id = ?`. -/
def delete_search_index_for_document (s : Store) (document_id : Nat) : Store :=
  { s with index_rows := s.index_rows.filter (fun e => e.document_id ≠ document_id) }

/-- `SearchQueries.bulk_create_search_index` — one transaction of
`INSERT OR REPLACE` rows.  The transaction commits only when every row
satisfies the table's CHECK constraints; otherwise SQLite raises, the
transaction rolls back, and the store is unchanged (`none`). -/
def bulk_create_search_index (s : Store) (entries : List SearchIndexEntry) :
    Option Store :=
  if ∀ e ∈ entries, searchIndexRowCheck e then
    some { s with
      index_rows :=
        s.index_rows.filter (fun old =>
          ¬ entries.any (fun e => e.document_id == old.document_id && e.keyword == old.keyword))
        ++ entries }
  else none

/-- `SearchQueries.get_search_cache` — first unexpired row matching the
hash (`WHERE query_hash = ? AND expires_at > datetime('now')`); on a hit,
`_update_cache_hit_count` bumps that row's `hit_count` by one. -/
def get_search_cache (s : Store) (query_hash : String) (now : Nat) :
    Option SearchCacheEntry × Store :=
  match s.cache_rows.find? (fun c => c.query_hash == query_hash && decide (now < c.expires_at)) with
  | some c =>
    (some c,
     { s with cache_rows := s.cache_rows.map (fun x =>
         if x.id = c.id then { x with hit_count := x.hit_count + 1 } else x) })
  | none => (none, s)

/-- `SearchQueries.cleanup_expired_cache` —
`DELETE FROM search_cache WHERE expires_at <= datetime('now')`. -/
def cleanup_expired_cache (s : Store) (now : Nat) : Store :=
  { s with cache_rows := s.cache_rows.filter (fun c => ¬ c.expires_at ≤ now) }

/-- `MetadataQueries.bulk_create_metadata` — `INSERT OR REPLACE` of every
pair; a conflicting `(document_id, key)` row is replaced. -/
def bulk_create_metadata (s : Store) (document_id : Nat)
    (metadata : List (String × String)) : Store :=
  { s with
    metadata_rows :=
      s.metadata_rows.filter (fun m =>
        ¬ (m.document_id == document_id && metadata.any (fun kv => kv.1 == m.key)))
      ++ metadata.map (fun kv => MetadataRow.mk document_id kv.1 kv.2) }

/-- `MetadataQueries.delete_document_metadata` —
`DELETE FROM document_metadata WHERE document_id = ?`. -/
def delete_document_metadata (s : Store) (document_id : Nat) : Store :=
  { s with metadata_rows := s.metadata_rows.filter (fun m => m.document_id ≠ document_id) }

/-! ## `src/database/database_manager.py` — the document manager -/

/-- The stop-word set of `DocumentManager._extract_keywords`. -/
def stop_words : List String :=
  ["the", "and", "or", "but", "in", "on", "at", "to", "for", "of", "with",
   "by", "from", "this", "that", "these", "those", "a", "an", "is", "are",
   "was", "were", "be", "been", "being", "have", "has", "had", "do", "does",
   "did", "will", "would", "could", "should", "may", "might", "can", "shall"]

/-- An ASCII letter. -/
def isAsciiAlphaChar (c : Char) : Bool :=
  ('a' ≤ c ∧ c ≤ 'z') ∨ ('A' ≤ c ∧ c ≤ 'Z')

/-- A regex word character (`\w` over the ASCII range relevant here). -/
def isRegexWordChar (c : Char) : Bool :=
  isAsciiAlphaChar c ∨ ('0' ≤ c ∧ c ≤ '9') ∨ c = '_'

/-- `re.findall(r"\b[a-zA-Z]{3,}\b", s)` — the matches are exactly the
maximal word-character runs that consist solely of letters and have
length at least 3 (a letter run adjacent to a digit or underscore fails
the word-boundary assertions). -/
def findallAlpha3 (s : String) : List String :=
  ((runsAux isRegexWordChar s.data []).filter
    (fun r => r.all isAsciiAlphaChar && decide (3 ≤ r.length))).map String.mk

/-- Python dict insertion-ordered `keywords[word].append(position)`. -/
def addKeywordPos (m : List (String × List Nat)) (w : String) (pos : Nat) :
    List (String × List Nat) :=
  if m.any (fun p => p.1 == w) then
    m.map (fun p => if p.1 == w then (p.1, p.2 ++ [pos]) else p)
  else m ++ [(w, [pos])]

/-- `DocumentManager._extract_keywords` — tokenize the lowercased content,
then record the position of every non-stop-word token of length ≥ 3
(positions index the full token list, stop words included). -/
def extract_keywords (content : String) : List (String × List Nat) :=
  let words := findallAlpha3 (pyLower content)
  words.enum.foldl (fun m pw =>
    if pw.2 ∈ stop_words ∨ pw.2.length < 3 then m
    else addKeywordPos m pw.2 pw.1) []

/-- The `SearchIndex` rows `DocumentManager._index_document_keywords`
builds for one document: `document_length = len(content.split())`,
`frequency = len(positions)`, relevance from
`SearchIndex.calculate_relevance_score`. -/
def index_document_keyword_entries (document_id : Nat) (content : String) :
    List SearchIndexEntry :=
  let keywords := extract_keywords content
  let document_length := (pySplit content).length
  keywords.map (fun kp =>
    { document_id := document_id
      keyword := pyLower kp.1
      frequency := kp.2.length
      positions := kp.2
      relevance_score := calculate_relevance_score kp.2.length document_length })

/-- `DocumentManager._index_document_keywords` — delete the document's
old index rows, then bulk-insert the new entries; a failed bulk insert is
caught and logged, leaving the index rows deleted but not replaced. -/
def index_document_keywords (s : Store) (document_id : Nat) (content : String) : Store :=
  let s1 := delete_search_index_for_document s document_id
  match bulk_create_search_index s1 (index_document_keyword_entries document_id content) with
  | some s2 => s2
  | none => s1

/-- The `Document` record `DocumentManager.index_document` constructs
(lines 138-160): fresh timestamps, `file_size = len(content.encode
("utf-8"))`, hash and derived names filled by `__post_init__`; an
existing document contributes its id and creation time. -/
def indexDocumentRecord (file_path content metadata_json : String) (now : Nat)
    (existing : Option Document) : Document :=
  let d := documentPostInit
    { id := none, file_path := file_path, file_name := "", content := content,
      file_type := "", file_size := utf8ByteLength content, file_hash := "",
      created_at := some now, modified_at := some now, indexed_at := some now,
      metadata_json := metadata_json }
  match existing with
  | some e => { d with id := e.id, created_at := e.created_at }
  | none => d

/-- `DocumentManager.index_document` — validate inputs, create or update
the document row, rewrite its metadata and keyword index, then sweep the
expired cache (`_invalidate_search_cache`).  Returns the document id and
the written document alongside the new store. -/
def manager_index_document (s : Store) (file_path content metadata_json : String)
    (metadata : List (String × String)) (now : Nat) :
    Option (Nat × Document × Store) :=
  if file_path = "" ∨ content = "" then none
  else
    let existing := get_document_by_path s file_path
    let document := indexDocumentRecord file_path content metadata_json now existing
    let idStore : Nat × Document × Store :=
      match existing with
      | some e =>
        let upd := update_document s document
        (e.id.getD 0, document, upd.1)
      | none =>
        let cr := create_document s document
        (cr.1, { document with id := some cr.1 }, cr.2)
    let document_id := idStore.1
    let s1 := bulk_create_metadata idStore.2.2 document_id metadata
    let s2 := index_document_keywords s1 document_id content
    some (document_id, idStore.2.1, cleanup_expired_cache s2 now)

/-- `DocumentManager.delete_document` — delete index rows, metadata rows,
then the document row; on success sweep the expired cache. -/
def manager_delete_document (s : Store) (document_id : Nat) (now : Nat) :
    Store × Bool :=
  let s1 := delete_search_index_for_document s document_id
  let s2 := delete_document_metadata s1 document_id
  let del := queries_delete_document s2 document_id
  if del.2 then (cleanup_expired_cache del.1 now, true) else (del.1, false)

/-! ## `src/tools/base.py` — parameter validation

JSON parameter values, per-property JSON schemas, and
`BaseMCPTool.validate_parameters` /
`BaseMCPTool._validate_property_constraints`.  Parameter dictionaries are
insertion-ordered association lists, as Python dicts are. -/

/-- A scalar JSON value, for array elements (no tool schema here declares
nested arrays). -/
inductive ScalarVal where
  | str (s : String)
  | int (n : Int)
  | float (q : Rat)
  | bool (b : Bool)
  | null
deriving Repr, DecidableEq

/-- A JSON parameter value (Python `bool` is kept distinct from `int`
because `isinstance` distinguishes them asymmetrically). -/
inductive JsonVal where
  | str (s : String)
  | int (n : Int)
  | float (q : Rat)
  | bool (b : Bool)
  | arr (xs : List ScalarVal)
  | null
deriving Repr, DecidableEq

/-- `BaseMCPTool._validate_type`: the `type_mapping` `isinstance` checks.
Python `bool` is a subclass of `int`, so booleans pass the `integer` and
`number` checks; unknown type names pass everything. -/
def pyIsInstanceType (v : JsonVal) (t : String) : Bool :=
  if t = "string" then (match v with | .str _ => true | _ => false)
  else if t = "number" then
    (match v with | .int _ => true | .float _ => true | .bool _ => true | _ => false)
  else if t = "integer" then
    (match v with | .int _ => true | .bool _ => true | _ => false)
  else if t = "boolean" then (match v with | .bool _ => true | _ => false)
  else if t = "array" then (match v with | .arr _ => true | _ => false)
  else if t = "null" then (match v with | .null => true | _ => false)
  else true

/-- Numeric reading of a value for the `minimum`/`maximum` checks, which
Python applies to any `isinstance(value, (int, float))` — booleans
included (`True == 1`). -/
def JsonVal.asNum : JsonVal → Option Rat
  | .int n => some (n : Rat)
  | .float q => some q
  | .bool b => some (if b then 1 else 0)
  | _ => none

/-- One property schema of a tool parameter schema.  `enum` and
`description` are declared in the schemas but — deliberately — never read
by the validation code.  `default := some .null` models a `"default"` key
present with value `None`. -/
structure PropSchema where
  vtype : Option String := none
  minLength : Option Nat := none
  maxLength : Option Nat := none
  minimum : Option Int := none
  maximum : Option Int := none
  minItems : Option Nat := none
  maxItems : Option Nat := none
  enum : Option (List JsonVal) := none
  default : Option JsonVal := none
deriving Repr, DecidableEq

/-- A tool parameter schema: `properties`, `required`,
`additionalProperties`, and (for `getDocument`) `oneOf` requirement
groups.  `validate_parameters` reads only `properties` and `required`. -/
structure ParamSchema where
  properties : List (String × PropSchema)
  required : List String := []
  additionalProperties : Bool := true
  oneOfRequired : List (List String) := []
deriving Repr, DecidableEq

instance {ε α : Type} [DecidableEq ε] [DecidableEq α] : DecidableEq (Except ε α) :=
  fun a b =>
    match a, b with
    | .error e, .error f => decidable_of_iff (e = f) (by simp)
    | .ok x, .ok y => decidable_of_iff (x = y) (by simp)
    | .error _, .ok _ => isFalse (by simp)
    | .ok _, .error _ => isFalse (by simp)

/-- Raise a `ToolValidationError` message when `cond` holds. -/
def guardE (cond : Bool) (msg : String) : Except String Unit :=
  if cond then .error msg else .ok ()

/-- Run a check only when the schema carries the bound. -/
def optCheck {α : Type} (o : Option α) (f : α → Except String Unit) :
    Except String Unit :=
  match o with
  | some a => f a
  | none => .ok ()

/-- `BaseMCPTool._validate_property_constraints` (`base.py` lines
268-319): string length bounds, numeric bounds (applied to anything
`isinstance(value, (int, float))`, booleans included), and array
item-count bounds.  There is no branch for `enum`. -/
def validate_property_constraints (param_name : String) (v : JsonVal)
    (p : PropSchema) : Except String Unit := do
  (match v with
   | .str s => do
     optCheck p.minLength (fun m => guardE (s.length < m)
       ("Parameter " ++ param_name ++ " must be at least " ++
        toString m ++ " characters long"))
     optCheck p.maxLength (fun m => guardE (m < s.length)
       ("Parameter " ++ param_name ++ " must be at most " ++
        toString m ++ " characters long"))
   | _ => pure ())
  (match v.asNum with
   | some q => do
     optCheck p.minimum (fun m => guardE (decide (q < (m : Rat)))
       ("Parameter " ++ param_name ++ " must be at least " ++ toString m))
     optCheck p.maximum (fun m => guardE (decide ((m : Rat) < q))
       ("Parameter " ++ param_name ++ " must be at most " ++ toString m))
   | none => pure ())
  (match v with
   | .arr xs => do
     optCheck p.minItems (fun m => guardE (xs.length < m)
       ("Parameter " ++ param_name ++ " must have at least " ++
        toString m ++ " items"))
     optCheck p.maxItems (fun m => guardE (m < xs.length)
       ("Parameter " ++ param_name ++ " must have at most " ++
        toString m ++ " items"))
   | _ => pure ())

/-- The required-field pass of `validate_parameters`: raise at the first
required name missing from the params dict. -/
def checkRequired (required : List String) (params : List (String × JsonVal)) :
    Except String Unit :=
  match required.find? (fun r => ¬ params.any (fun p => p.1 == r)) with
  | some r => .error ("Missing required parameter: " ++ r)
  | none => .ok ()

/-- The per-parameter pass of `validate_parameters`: a parameter whose
name is not declared in `properties` is passed through untouched ("Allow
extra parameters for flexibility"); a declared one is type-checked and
constraint-checked, then passed through. -/
def validateEachParam (properties : List (String × PropSchema)) :
    List (String × JsonVal) → Except String (List (String × JsonVal))
  | [] => .ok []
  | (name, v) :: rest =>
    match properties.find? (fun p => p.1 == name) with
    | none => do
      let tail ← validateEachParam properties rest
      pure ((name, v) :: tail)
    | some np => do
      optCheck np.2.vtype (fun t => guardE (¬ pyIsInstanceType v t)
        ("Parameter " ++ name ++ " must be of type " ++ t))
      validate_property_constraints name v np.2
      let tail ← validateEachParam properties rest
      pure ((name, v) :: tail)

/-- The default-application pass: every declared property that is absent
from the validated dict and carries a `"default"` key is appended with
its default value, in declaration order. -/
def applyDefaults (properties : List (String × PropSchema))
    (validated : List (String × JsonVal)) : List (String × JsonVal) :=
  validated ++
    ((properties.filter (fun p =>
        !(validated.any (fun q => q.1 == p.1)) && p.2.default.isSome)).map
      (fun p => (p.1, p.2.default.getD .null)))

/-- `BaseMCPTool.validate_parameters` (`base.py` lines 189-248). -/
def validate_parameters (schema : ParamSchema) (params : List (String × JsonVal)) :
    Except String (List (String × JsonVal)) := do
  checkRequired schema.required params
  let validated ← validateEachParam schema.properties params
  pure (applyDefaults schema.properties validated)

/-- What `BaseMCPTool.execute` does with the validation outcome: a
`ToolValidationError` becomes a `success=false` result carrying a
parameter-validation message, anything else reaches `_execute_tool`. -/
inductive ExecuteStage where
  | validationError (msg : String)
  | handlerRuns (validated : List (String × JsonVal))
deriving Repr, DecidableEq

/-- The validation gate of `BaseMCPTool.execute`. -/
def execute_validation_stage (schema : ParamSchema)
    (params : List (String × JsonVal)) : ExecuteStage :=
  match validate_parameters schema params with
  | .error e => .validationError ("Parameter validation failed: " ++ e)
  | .ok v => .handlerRuns v

/-- `SearchDocumentsTool.get_parameter_schema`
(`searchDocuments.py` lines 57-90). -/
def searchDocumentsSchema : ParamSchema :=
  { properties :=
      [("query", { vtype := some "string", minLength := some 1, maxLength := some 500 }),
       ("limit", { vtype := some "integer", default := some (.int 10),
                   minimum := some 1, maximum := some 100 }),
       ("file_type", { vtype := some "string",
                       enum := some [.str ".md", .str ".txt", .str "markdown", .str "text"],
                       default := some .null }),
       ("sort_by", { vtype := some "string",
                     enum := some [.str "relevance", .str "date", .str "name"],
                     default := some (.str "relevance") })],
    required := ["query"],
    additionalProperties := false }

/-- `IndexDocumentTool.get_parameter_schema`
(`indexDocument.py` lines 49-69). -/
def indexDocumentSchema : ParamSchema :=
  { properties :=
      [("file_path", { vtype := some "string", minLength := some 1, maxLength := some 1000 }),
       ("force_reindex", { vtype := some "boolean", default := some (.bool false) })],
    required := ["file_path"],
    additionalProperties := false }

/-- `GetDocumentTool.get_parameter_schema` (`getDocument.py` lines
56-100). -/
def getDocumentSchema : ParamSchema :=
  { properties :=
      [("document_id", { vtype := some "integer", minimum := some 1 }),
       ("file_path", { vtype := some "string", minLength := some 1, maxLength := some 1000 }),
       ("include_content", { vtype := some "boolean", default := some (.bool true) }),
       ("format", { vtype := some "string",
                    enum := some [.str "json", .str "markdown", .str "text"],
                    default := some (.str "json") }),
       ("include_metadata", { vtype := some "boolean", default := some (.bool true) }),
       ("max_content_length", { vtype := some "integer", default := some (.int 0),
                                minimum := some 0, maximum := some 10485760 })],
    required := [],
    additionalProperties := false,
    oneOfRequired := [["document_id"], ["file_path"]] }

/-! ## `src/tools/searchDocuments.py` — the cache stage

`SearchDocumentsTool._execute_tool` checks the query cache before
scoring: `_get_cached_search` fetches by cache key through
`SearchQueries.get_search_cache` and, when the entry carries a non-empty
serialized payload, the tool’s response is built from that payload and
the database search never runs. -/

/-- How a search request is served: from the cached serialized results
blob, or by running the scoring pipeline. -/
inductive SearchServed where
  | cached (serialized_results : String)
  | scored
deriving Repr, DecidableEq

/-- The cache stage of `SearchDocumentsTool._execute_tool`
(`searchDocuments.py` lines 117-136 with `_get_cached_search`): a hit
with a truthy `results` payload short-circuits; anything else falls
through to the database search.  (`_get_cached_search` parses the JSON
payload; a stored response dict is truthy exactly when the payload is
non-empty.) -/
def searchTool_cache_stage (s : Store) (cache_key : String) (now : Nat) :
    SearchServed × Store :=
  match get_search_cache s cache_key now with
  | (some c, s1) => if c.results ≠ "" then (.cached c.results, s1) else (.scored, s1)
  | (none, s1) => (.scored, s1)

/-! ## `src/tools/getDocument.py` — content formatting -/

/-- `GetDocumentTool.max_content_size` — the built-in 5 MB cap. -/
def max_content_size : Nat := 5 * 1024 * 1024

/-- `GetDocumentTool.truncation_indicator`. -/
def truncation_indicator : String := "\n\n[Content truncated due to size limits]\n"

/-- The body a `_format_content` call returns: either a literal string,
or the output of `_strip_markdown` on the recorded input.  The
`_strip_markdown` regex rewrites are kept uninterpreted (no claim here
depends on their output), so the `text` format records its input
instead. -/
inductive BodyOut where
  | lit (s : String)
  | strippedMarkdown (s : String)
deriving Repr, DecidableEq

/-- The dictionary `_format_content` returns (`content`, `truncated`,
`original_length`; `length` is `content`’s length and is carried by
`BodyOut.lit`). -/
structure FormatContentResult where
  content : BodyOut
  truncated : Bool
  original_length : Option Nat
deriving Repr, DecidableEq

/-- The `markdown_indicators` list of `_format_content`. -/
def markdown_indicators : List String :=
  ["**", "*", "`", "##", "- ", "1. ", "[", "]("]

/-- The header strings of the `startswith` check of `_format_content`. -/
def headerStarts : List String :=
  ["# ", "## ", "### ", "#### ", "##### ", "###### "]

/-- `GetDocumentTool._format_content` (`getDocument.py` lines 291-361):
empty content short-circuits; a positive `max_length` truncates at
`max_length`, otherwise content beyond the 5 MB cap truncates at the
cap, appending the sentinel either way; then the body is shaped by
format — `json` as-is, `markdown` as-is when the stripped content starts
with a header or any markdown indicator occurs, else fenced; `text`
through `_strip_markdown`; unknown formats as-is. -/
def format_content (content : String) (format_type : String) (max_length : Nat) :
    FormatContentResult :=
  if content = "" then
    { content := .lit "", truncated := false, original_length := none }
  else
    let original_length := content.length
    let tr : String × Bool :=
      if 0 < max_length ∧ max_length < original_length then
        (pyTake content max_length ++ truncation_indicator, true)
      else if max_content_size < original_length then
        (pyTake content max_content_size ++ truncation_indicator, true)
      else (content, false)
    let c := tr.1
    let body : BodyOut :=
      if format_type = "json" then .lit c
      else if format_type = "markdown" then
        if headerStarts.any (fun h => pyStartsWith (pyStrip c) h) then .lit c
        else if markdown_indicators.any (fun i => pyContains c i) then .lit c
        else .lit ("```\n" ++ c ++ "\n```")
      else if format_type = "text" then .strippedMarkdown c
      else .lit c
    { content := body, truncated := tr.2, original_length := some original_length }

/-! ## `src/tools/indexDocument.py` — the indexing tool -/

/-- What the tool can observe about the target file (the
`Path(file_path)` calls of `_execute_tool`). -/
structure FsFileInfo where
  fileExists : Bool
  isRegularFile : Bool
  sizeBytes : Nat
  mtime : Nat
deriving Repr, DecidableEq

/-- `IndexDocumentTool._is_supported_file_type` — suffix lowercased,
membership in `{.md, .txt}`. -/
def is_supported_file_type (file_path : String) : Bool :=
  let ext := pyLower (pathSuffix file_path)
  ext == ".md" || ext == ".txt"

/-- What the tool does with the file after parsing, as recorded by the
parser collaborator (§4.5 of the spec): parse success and extracted
content. -/
structure ParseOutcome where
  success : Bool
  content : String
deriving Repr, DecidableEq

/-- The observable outcome of `IndexDocumentTool._execute_tool`:
an error envelope, the `already_indexed` short-circuit, or a full
ingest/reindex (which parses the file and writes the store). -/
inductive IndexToolOutcome where
  | errorResult (msg : String)
  | alreadyIndexed (document_id : Option Nat)
  | indexedNew (document_id : Nat)
  | reindexed (document_id : Nat)
deriving Repr, DecidableEq

/-- The `status` string the tool reports for an outcome. -/
def IndexToolOutcome.statusString : IndexToolOutcome → Option String
  | .errorResult _ => none
  | .alreadyIndexed _ => some "already_indexed"
  | .indexedNew _ => some "indexed"
  | .reindexed _ => some "reindexed"

/-- `IndexDocumentTool._execute_tool` (`indexDocument.py` lines 71-185):
existence, type and size gates; the already-indexed short-circuit when
`force_reindex` is false and the file mtime is not newer than the stored
`modified_at` (comparing a datetime against a stored `None` raises,
caught by the outer handler); then parse, the empty-content gate, and
`DocumentManager.index_document`.  Returns the outcome, the resulting
store, and whether the parser was invoked. -/
def indexDocument_execute (fs : FsFileInfo) (s : Store) (file_path : String)
    (force_reindex : Bool) (parse : ParseOutcome)
    (metadata : List (String × String)) (metadata_json : String) (now : Nat) :
    IndexToolOutcome × Store × Bool :=
  if ¬ fs.fileExists then
    (.errorResult ("File not found: " ++ file_path), s, false)
  else if ¬ fs.isRegularFile then
    (.errorResult ("Path is not a file: " ++ file_path), s, false)
  else if ¬ is_supported_file_type file_path then
    (.errorResult ("Unsupported file type: " ++ pathSuffix file_path ++
      ". Supported types: .md, .txt"), s, false)
  else if 10485760 < fs.sizeBytes then
    (.errorResult ("File too large: " ++ toString fs.sizeBytes ++
      " bytes. Maximum size: 10485760 bytes"), s, false)
  else
    let existing := get_document_by_path s file_path
    let shortCircuit : Option IndexToolOutcome :=
      match existing, force_reindex with
      | some doc, false =>
        match doc.modified_at with
        | some m => if fs.mtime ≤ m then some (.alreadyIndexed doc.id) else none
        | none => some (.errorResult "Tool execution failed: comparison with None")
      | _, _ => none
    match shortCircuit with
    | some out => (out, s, false)
    | none =>
      if ¬ parse.success then
        (.errorResult "Failed to parse document", s, true)
      else if pyStrip parse.content = "" then
        (.errorResult "Document appears to be empty or contains no readable content", s, true)
      else
        match manager_index_document s file_path parse.content metadata_json metadata now with
        | some (document_id, _, s2) =>
          (match existing with
           | some _ => (.reindexed document_id, s2, true)
           | none => (.indexedNew document_id, s2, true))
        | none => (.errorResult "Failed to index document in database", s, true)

/-! ## `src/watcher/event_handler.py` — debounced coalescing

A per-path model of `_handle_with_debouncing` / `_debounced_process`
under the asyncio semantics: `Task.cancel()` only schedules the
cancellation; the `CancelledError` handler of the cancelled task runs on
the next loop iteration, i.e. after the synchronous body of
`_handle_with_debouncing` has stored the replacement event and created
the replacement task.  A burst is a sequence of events on one path all
arriving before any debounce timer fires; afterwards the surviving
timers fire in creation order. -/

/-- The `FileEvent` dataclass of `event_handler.py`. -/
structure FileEvent where
  event_type : String
  file_path : String
  old_path : Option String := none
  timestamp : Nat := 0
deriving Repr, DecidableEq

/-- The handler state for one path, plus the dispatch log:
`pending` is `_pending_events[path]`, `taskDict` is
`_debounce_tasks[path]` (a task id), `queue` the sleeping uncancelled
tasks in creation order. -/
structure WatchState where
  pending : Option FileEvent
  taskDict : Option Nat
  nextId : Nat
  queue : List Nat
  dispatches : List FileEvent
deriving Repr, DecidableEq

/-- No events seen yet. -/
def initialWatchState : WatchState :=
  { pending := none, taskDict := none, nextId := 0, queue := [], dispatches := [] }

/-- One event arrival: `_handle_with_debouncing` cancels the task
registered for the path (if any), stores the latest event in
`_pending_events`, and registers a fresh `_debounced_process` task; then
the event loop delivers the `CancelledError` to the cancelled task,
whose handler pops `_pending_events[path]` (the just-stored replacement
event!) and whose `finally` pops `_debounce_tasks[path]` (the just-
registered replacement task!). -/
def onEvent (st : WatchState) (e : FileEvent) : WatchState :=
  let newId := st.nextId
  let base : WatchState :=
    { pending := some e
      taskDict := some newId
      nextId := newId + 1
      queue := (match st.taskDict with
                | some tid => st.queue.filter (fun x => x ≠ tid)
                | none => st.queue) ++ [newId]
      dispatches := st.dispatches }
  match st.taskDict with
  | some _ => { base with pending := none, taskDict := none }
  | none => base

/-- The earliest sleeping task completes its `asyncio.sleep` and runs the
rest of `_debounced_process`: dispatch the pending event if one is
present, then `finally` pops the task entry for the path. -/
def fireNextTimer (st : WatchState) : WatchState :=
  match st.queue with
  | [] => st
  | _ :: rest =>
    match st.pending with
    | some e =>
      { st with pending := none, taskDict := none, queue := rest,
                dispatches := st.dispatches ++ [e] }
    | none => { st with taskDict := none, queue := rest }

/-- Let every remaining timer fire. -/
def fireAllGo : Nat → WatchState → WatchState
  | 0, st => st
  | n + 1, st => fireAllGo n (fireNextTimer st)

/-- The dispatches produced by a burst of same-path events arriving
within the debounce window, once all timers have fired. -/
def debounceBurstDispatches (events : List FileEvent) : List FileEvent :=
  let st := events.foldl onEvent initialWatchState
  (fireAllGo st.queue.length st).dispatches

/-! ## `src/watcher/file_watcher.py` — the deletion handler -/

/-- Attribute resolution on the `DocumentQueries` instance: a name the
class does not define raises `AttributeError`. -/
def call_doc_queries_method (name : String) : Except String Unit :=
  if documentQueriesMethods.contains name then .ok ()
  else .error ("AttributeError: DocumentQueries has no attribute " ++ name)

/-- `FileWatcher._handle_file_deleted` (`file_watcher.py` lines 272-300):
the body calls `self.database_manager.doc_queries.delete_document_by_path
(file_event.file_path)`.  `DocumentQueries` defines no such method
(`documentQueriesMethods`), so the attribute lookup raises before the
store is touched and the handler's `except` logs the error and returns
`None`; the `ok` branch models the deletion the handler body describes
and is unreachable. -/
def handle_file_deleted (s : Store) (file_path : String) : Option String × Store :=
  match call_doc_queries_method "delete_document_by_path" with
  | .error _ => (none, s)
  | .ok _ =>
    if s.documents.any (fun d => d.file_path == file_path) then
      (some "deleted",
       { s with documents := s.documents.filter (fun d => d.file_path ≠ file_path) })
    else (some "not_found", s)

/-! ## Digest shape lemmas -/

/-- A SHA-256 hexdigest has 64 characters. -/
theorem sha256hexBytes_length (msg : List Nat) : (sha256hexBytes msg).length = 64 := by
  simp [sha256hexBytes, sha256words, String.length, wordHex8]

/-- Every character `hexNibble` emits is a lowercase hex digit. -/
theorem hexNibble_mem (n : Nat) : hexNibble n ∈ hexDigitChars := by
  unfold hexNibble
  rcases h : hexDigitChars[n]? with _ | c
  · simp [List.getD, h]; decide
  · simp [List.getD, h]
    exact List.getElem?_mem h

/-- Every character of a SHA-256 hexdigest is a lowercase hex digit. -/
theorem sha256hexBytes_mem (msg : List Nat) :
    ∀ ch ∈ (sha256hexBytes msg).data, ch ∈ hexDigitChars := by
  intro ch hch
  simp only [sha256hexBytes, sha256words, String.mk] at hch
  simp only [List.mem_flatMap] at hch
  obtain ⟨w, _, hw⟩ := hch
  simp only [wordHex8, List.mem_cons, List.not_mem_nil, or_false] at hw
  rcases hw with h | h | h | h | h | h | h | h <;> (subst h; exact hexNibble_mem _)

/-! ## The claims -/

/-- C1.  The spec claims every inverted-index entry has
`relevance = tf × (1 + min(1.0, frequency/5))` with `tf = frequency /
totalWords`, *clamped to [0,1]*.  The formula is implemented exactly, but
`SearchIndex.calculate_relevance_score` never clamps: the single-word
document `"zap"` yields `tf = 1` and relevance `6/5 > 1`, which also
violates the `CHECK (relevance_score >= 0.0 AND relevance_score <= 1.0)`
constraint of the `search_index` table and the method's own docstring
("Relevance score between 0.0 and 1.0"). -/
theorem C1_relevance_not_clamped :
    index_document_keyword_entries 7 "zap" =
      [{ document_id := 7, keyword := "zap", frequency := 1, positions := [0],
         relevance_score := 6/5 }] ∧
    calculate_relevance_score 1 1 = 6/5 ∧
    ¬ ((6 : Rat)/5 ≤ 1) ∧
    ¬ searchIndexRowCheck { document_id := 7, keyword := "zap", frequency := 1,
                            positions := [0], relevance_score := 6/5 } := by
  have h : extract_keywords "zap" = [("zap", [0])] := by decide
  have h2 : (pySplit "zap").length = 1 := by decide
  have h3 : pyLower "zap" = "zap" := by decide
  refine ⟨?_, ?_, by norm_num, ?_⟩
  · simp [index_document_keyword_entries, h, h2, h3, calculate_relevance_score]
    norm_num
  · norm_num [calculate_relevance_score]
  · simp [searchIndexRowCheck]
    norm_num

/-- C5.  The spec claims N ≥ 1 same-path events within the debounce
window produce exactly one dispatch carrying the last event.  In the
source, the `CancelledError` handler of a cancelled `_debounced_process`
task pops `_pending_events[path]` after the replacement event has been
stored there, so a two-event burst produces ZERO dispatches (while a
single event is dispatched correctly). -/
theorem C5_debounced_burst_loses_event :
    debounceBurstDispatches
      [{ event_type := "modified", file_path := "/tmp/c.md", timestamp := 100 },
       { event_type := "modified", file_path := "/tmp/c.md", timestamp := 150 }] = [] ∧
    debounceBurstDispatches
      [{ event_type := "modified", file_path := "/tmp/c.md", timestamp := 100 }] =
      [{ event_type := "modified", file_path := "/tmp/c.md", timestamp := 100 }] := by
  decide

/-- A store with one indexed document, for witnesses. -/
def sampleDoc : Document :=
  { id := some 1, file_path := "/tmp/a.md", file_name := "a.md", content := "hello",
    file_type := "md", file_size := 5, file_hash := "", created_at := some 1,
    modified_at := some 1, indexed_at := some 1, metadata_json := "{}" }

/-- A store holding `sampleDoc` with one metadata row and one index row. -/
def sampleStore : Store :=
  { documents := [sampleDoc],
    metadata_rows := [{ document_id := 1, key := "k", value := "v" }],
    index_rows := [{ document_id := 1, keyword := "hello", frequency := 1,
                     positions := [0], relevance_score := 0 }],
    cache_rows := [] }

/-- C2.  The spec claims a `deleted` watcher event on an indexed path
removes the document from the store by path and reports the action as
`deleted`.  The handler calls `doc_queries.delete_document_by_path`, a
method `DocumentQueries` does not define; the `AttributeError` is caught
inside `_handle_file_deleted`, which returns `None`: the store is left
unchanged and the action is never `deleted`.  (Only the test suite's
mocks provide the missing method.) -/
theorem C2_deleted_event_not_removed (s : Store) (file_path : String)
    (h : (get_document_by_path s file_path).isSome = true) :
    handle_file_deleted s file_path = (none, s) ∧
    (handle_file_deleted s file_path).1 ≠ some "deleted" ∧
    "delete_document_by_path" ∉ documentQueriesMethods := by
  refine ⟨?_, ?_, by decide⟩ <;>
    simp [handle_file_deleted, call_doc_queries_method, documentQueriesMethods]

/-- Witness for C2 at a concrete indexed store. -/
theorem C2_witness :
    (get_document_by_path sampleStore "/tmp/a.md").isSome = true ∧
    handle_file_deleted sampleStore "/tmp/a.md" = (none, sampleStore) ∧
    (handle_file_deleted sampleStore "/tmp/a.md").1 ≠ some "deleted" ∧
    "delete_document_by_path" ∉ documentQueriesMethods := by
  have h : (get_document_by_path sampleStore "/tmp/a.md").isSome = true := by decide
  have main := C2_deleted_event_not_removed sampleStore "/tmp/a.md" h
  exact ⟨h, main.1, main.2.1, main.2.2⟩

/-- C3 counterexample.  The claim says a parameter value outside a
declared enum (here `sort_by = "bogus"` against
`{relevance, date, name}`) is rejected before the handler runs with a
ValidationError.  In fact `_validate_property_constraints` has no enum
branch at all: the call passes validation and reaches the handler with
the out-of-enum value intact. -/
theorem C3_counterexample_enum_not_checked :
    (∀ p ∈ searchDocumentsSchema.properties, p.1 = "sort_by" →
      p.2.enum = some [.str "relevance", .str "date", .str "name"]) ∧
    JsonVal.str "bogus" ∉ [JsonVal.str "relevance", JsonVal.str "date", JsonVal.str "name"] ∧
    execute_validation_stage searchDocumentsSchema
        [("query", .str "test"), ("sort_by", .str "bogus")] =
      .handlerRuns [("query", .str "test"), ("sort_by", .str "bogus"),
                    ("limit", .int 10), ("file_type", .null)] := by
  decide

/-- C3 amended.  Parameter validation checks required fields, types,
string-length bounds, numeric bounds and array item counts but not enum
membership: every string value for `sort_by` — in particular every value
outside the declared enum — passes validation and is forwarded to the
handler unchanged (with the remaining defaults applied). -/
theorem C3_amended_enum_passthrough (v : String)
    (hv : JsonVal.str v ∉ [JsonVal.str "relevance", JsonVal.str "date", JsonVal.str "name"]) :
    execute_validation_stage searchDocumentsSchema
        [("query", .str "test"), ("sort_by", .str v)] =
      .handlerRuns [("query", .str "test"), ("sort_by", .str v),
                    ("limit", .int 10), ("file_type", .null)] := by
  rfl

/-- Witness for the amended C3 at `sort_by = "bogus"`. -/
theorem C3_amended_witness :
    JsonVal.str "bogus" ∉ [JsonVal.str "relevance", JsonVal.str "date", JsonVal.str "name"] ∧
    execute_validation_stage searchDocumentsSchema
        [("query", .str "test"), ("sort_by", .str "bogus")] =
      .handlerRuns [("query", .str "test"), ("sort_by", .str "bogus"),
                    ("limit", .int 10), ("file_type", .null)] :=
  ⟨by decide, C3_amended_enum_passthrough "bogus" (by decide)⟩

/-- C4.  A search whose query hash matches an unexpired cache row is
served from that row: the serialized results string is returned exactly
as stored (byte-for-byte), the row's `hit_count` is incremented by one,
and the scoring pipeline does not run. -/
theorem C4_cache_hit_serves_verbatim (s : Store) (key : String) (now : Nat)
    (c : SearchCacheEntry)
    (hfind : s.cache_rows.find?
        (fun x => x.query_hash == key && decide (now < x.expires_at)) = some c)
    (hres : c.results ≠ "") :
    searchTool_cache_stage s key now =
      (SearchServed.cached c.results,
       { s with cache_rows := s.cache_rows.map (fun x =>
           if x.id = c.id then { x with hit_count := x.hit_count + 1 } else x) }) ∧
    (searchTool_cache_stage s key now).1 ≠ SearchServed.scored := by
  unfold searchTool_cache_stage get_search_cache
  rw [hfind]
  simp [hres]

/-- An unexpired cache row, for the C4 witness. -/
def sampleCacheEntry : SearchCacheEntry :=
  { id := 3, query_hash := "abc", query_text := "hello", results := "RESULTS",
    created_at := 10, expires_at := 100, hit_count := 4 }

/-- A store holding only `sampleCacheEntry`. -/
def sampleCacheStore : Store :=
  { documents := [], metadata_rows := [], index_rows := [],
    cache_rows := [sampleCacheEntry] }

/-- Witness for C4 at a concrete store and time. -/
theorem C4_witness :
    (sampleCacheStore.cache_rows.find?
        (fun x => x.query_hash == "abc" && decide ((50:Nat) < x.expires_at)) =
      some sampleCacheEntry) ∧
    sampleCacheEntry.results ≠ "" ∧
    searchTool_cache_stage sampleCacheStore "abc" 50 =
      (SearchServed.cached sampleCacheEntry.results,
       { sampleCacheStore with cache_rows := sampleCacheStore.cache_rows.map (fun x =>
           if x.id = sampleCacheEntry.id then { x with hit_count := x.hit_count + 1 } else x) }) ∧
    (searchTool_cache_stage sampleCacheStore "abc" 50).1 ≠ SearchServed.scored := by
  have h1 : sampleCacheStore.cache_rows.find?
      (fun x => x.query_hash == "abc" && decide ((50:Nat) < x.expires_at)) =
      some sampleCacheEntry := by decide
  have h2 : sampleCacheEntry.results ≠ "" := by decide
  have main := C4_cache_hit_serves_verbatim sampleCacheStore "abc" 50 sampleCacheEntry h1 h2
  exact ⟨h1, h2, main.1, main.2⟩

/-- C6.  Every write the document manager performs (create of a new
path, update/reindex of an existing one) stores a document whose
`file_hash` is the SHA-256 hexdigest of its content — 64 lowercase hex
characters — and whose `file_size` is the UTF-8 byte length of its
content: `index_document` rebuilds the record from the raw content and
`Document.__post_init__` recomputes the hash. -/
theorem C6_write_recomputes_hash_and_size (s : Store)
    (file_path content metadata_json : String)
    (metadata : List (String × String)) (now : Nat)
    (hp : file_path ≠ "") (hc : content ≠ "") :
    ∃ document_id doc s2,
      manager_index_document s file_path content metadata_json metadata now =
        some (document_id, doc, s2) ∧
      doc.content = content ∧
      doc.file_hash = sha256hexdigest content ∧
      doc.file_hash.length = 64 ∧
      (∀ ch ∈ doc.file_hash.data, ch ∈ hexDigitChars) ∧
      doc.file_size = utf8ByteLength content := by
  have hrec : ∀ existing,
      (indexDocumentRecord file_path content metadata_json now existing).content = content ∧
      (indexDocumentRecord file_path content metadata_json now existing).file_hash =
        sha256hexdigest content ∧
      (indexDocumentRecord file_path content metadata_json now existing).file_size =
        utf8ByteLength content := by
    intro existing
    cases existing <;>
      simp [indexDocumentRecord, documentPostInit, hp, hc, Document.calculate_content_hash]
  have hlen : (sha256hexdigest content).length = 64 := sha256hexBytes_length _
  have hmem : ∀ ch ∈ (sha256hexdigest content).data, ch ∈ hexDigitChars :=
    sha256hexBytes_mem _
  unfold manager_index_document
  rw [if_neg (by simp [hp, hc])]
  rcases hex : get_document_by_path s file_path with _ | e
  · obtain ⟨h1, h2, h3⟩ := hrec none
    exact ⟨_, _, _, rfl, by simp [h1], by simp [h2], by simp [h2, hlen],
      by simpa [h2] using hmem, by simp [h3]⟩
  · obtain ⟨h1, h2, h3⟩ := hrec (some e)
    exact ⟨_, _, _, rfl, h1, h2, by simp [h2, hlen], by rw [h2]; exact hmem, h3⟩

/-- Witness for C6 at a concrete store and content. -/
theorem C6_witness :
    ("/tmp/b.md" : String) ≠ "" ∧ ("hello" : String) ≠ "" ∧
    ∃ document_id doc s2,
      manager_index_document sampleStore "/tmp/b.md" "hello" "{}" [] 0 =
        some (document_id, doc, s2) ∧
      doc.content = "hello" ∧
      doc.file_hash = sha256hexdigest "hello" ∧
      doc.file_hash.length = 64 ∧
      (∀ ch ∈ doc.file_hash.data, ch ∈ hexDigitChars) ∧
      doc.file_size = utf8ByteLength "hello" :=
  ⟨by decide, by decide,
   C6_write_recomputes_hash_and_size sampleStore "/tmp/b.md" "hello" "{}" [] 0
     (by decide) (by decide)⟩

/-- C7.  After a successful `DocumentManager.delete_document`, no
`document_metadata` row and no `search_index` row references the deleted
document id: the manager deletes both sets explicitly and the
`documents` delete cascades per the schema's foreign keys. -/
theorem C7_delete_leaves_no_references (s : Store) (document_id now : Nat)
    (h : (manager_delete_document s document_id now).2 = true) :
    ((manager_delete_document s document_id now).1.metadata_rows.filter
      (fun m => m.document_id == document_id)) = [] ∧
    ((manager_delete_document s document_id now).1.index_rows.filter
      (fun e => e.document_id == document_id)) = [] := by
  unfold manager_delete_document queries_delete_document
    delete_search_index_for_document delete_document_metadata cleanup_expired_cache
  rcases hb : s.documents.any (fun d => d.id == some document_id) <;>
    constructor <;>
      simp [hb, List.filter_filter, List.filter_eq_nil_iff]

/-- Witness for C7 at a concrete store where the deletion succeeds. -/
theorem C7_witness :
    (manager_delete_document sampleStore 1 0).2 = true ∧
    ((manager_delete_document sampleStore 1 0).1.metadata_rows.filter
      (fun m => m.document_id == 1)) = [] ∧
    ((manager_delete_document sampleStore 1 0).1.index_rows.filter
      (fun e => e.document_id == 1)) = [] := by
  have h : (manager_delete_document sampleStore 1 0).2 = true := by decide
  exact ⟨h, C7_delete_leaves_no_references sampleStore 1 0 h⟩

/-- C8 counterexample.  The claim quantifies over every `getDocument`
call with `include_content=true` and `max_content_length=0` and asserts
content at most 5 MB is returned whole.  With `format="markdown"` and a
body with no markdown syntax, `_format_content` wraps the body in a
fenced code block, so the returned content is not the stored content
(`content_truncated` is still false). -/
theorem C8_counterexample_markdown_wraps :
    (format_content "hello world" "markdown" 0).truncated = false ∧
    (format_content "hello world" "markdown" 0).content ≠ BodyOut.lit "hello world" ∧
    (format_content "hello world" "markdown" 0).content =
      BodyOut.lit ("```\nhello world\n```") := by
  decide

/-- C8 amended.  For the default `format="json"` (which returns the body
as-is) with `max_content_length=0`: content longer than 5 MB
(5*1024*1024 characters) is returned as its first 5 MB followed by the
truncation sentinel with `content_truncated=true`; content at most 5 MB
is returned whole with `content_truncated=false`. -/
theorem C8_amended_json_five_mb_cap (content : String) :
    (5242880 < content.length →
      format_content content "json" 0 =
        { content := .lit (pyTake content 5242880 ++ truncation_indicator),
          truncated := true, original_length := some content.length }) ∧
    (content.length ≤ 5242880 →
      (format_content content "json" 0).content = BodyOut.lit content ∧
      (format_content content "json" 0).truncated = false) := by
  constructor
  · intro h
    have hne : content ≠ "" := by
      intro he; rw [he] at h; simp [String.length] at h
    simp [format_content, hne, max_content_size, h]
  · intro h
    by_cases hne : content = ""
    · subst hne; simp [format_content]
    · have : ¬ (5242880 : Nat) < content.length := by omega
      simp [format_content, hne, max_content_size, this]

/-- Witness for the amended C8 on the small-content side. -/
theorem C8_amended_witness :
    ("hi" : String).length ≤ 5242880 ∧
    (format_content "hi" "json" 0).content = BodyOut.lit "hi" ∧
    (format_content "hi" "json" 0).truncated = false :=
  ⟨by decide, (C8_amended_json_five_mb_cap "hi").2 (by decide)⟩

/-- C9.  An `indexDocument` call on an already-indexed path with
`force_reindex=false` and a file mtime not newer than the stored
`modified_at` short-circuits: success with status `already_indexed` and
the existing document id, no parser invocation, and an unchanged
store. -/
theorem C9_already_indexed_short_circuit (fs : FsFileInfo) (s : Store)
    (file_path : String) (parse : ParseOutcome)
    (metadata : List (String × String)) (metadata_json : String) (now : Nat)
    (doc : Document) (m : Nat)
    (h1 : fs.fileExists = true) (h2 : fs.isRegularFile = true)
    (h3 : is_supported_file_type file_path = true)
    (h4 : fs.sizeBytes ≤ 10485760)
    (h5 : get_document_by_path s file_path = some doc)
    (h6 : doc.modified_at = some m) (h7 : fs.mtime ≤ m) :
    indexDocument_execute fs s file_path false parse metadata metadata_json now =
      (.alreadyIndexed doc.id, s, false) ∧
    (IndexToolOutcome.alreadyIndexed doc.id).statusString = some "already_indexed" := by
  have h4n : ¬ (10485760 < fs.sizeBytes) := by omega
  refine ⟨?_, rfl⟩
  simp [indexDocument_execute, h1, h2, h3, h4n, h5, h6, h7]

/-- Concrete file-system observation for the C9 witness. -/
def sampleFs : FsFileInfo :=
  { fileExists := true, isRegularFile := true, sizeBytes := 100, mtime := 1 }

/-- Witness for C9 at a concrete file and store. -/
theorem C9_witness :
    sampleFs.fileExists = true ∧
    sampleFs.isRegularFile = true ∧
    is_supported_file_type "/tmp/a.md" = true ∧
    sampleFs.sizeBytes ≤ 10485760 ∧
    get_document_by_path sampleStore "/tmp/a.md" = some sampleDoc ∧
    sampleDoc.modified_at = some 1 ∧
    sampleFs.mtime ≤ 1 ∧
    (indexDocument_execute sampleFs sampleStore "/tmp/a.md" false
        { success := true, content := "hello" } [] "{}" 5 =
      (.alreadyIndexed sampleDoc.id, sampleStore, false) ∧
     (IndexToolOutcome.alreadyIndexed sampleDoc.id).statusString = some "already_indexed") :=
  ⟨by decide, by decide, by decide, by decide, by decide, by decide, by decide,
   C9_already_indexed_short_circuit sampleFs sampleStore "/tmp/a.md"
     { success := true, content := "hello" } [] "{}" 5 sampleDoc 1
     (by decide) (by decide) (by decide) (by decide) (by decide) (by decide) (by decide)⟩

/-- C10.  Although every tool's published schema declares
`additionalProperties: false`, `validate_parameters` passes any parameter
whose name is not a declared property through unchanged ("Allow extra
parameters for flexibility") and the handler runs. -/
theorem C10_extra_parameter_passes_through (k : String) (v : JsonVal)
    (hk : k ∉ ["query", "limit", "file_type", "sort_by"]) :
    searchDocumentsSchema.additionalProperties = false ∧
    indexDocumentSchema.additionalProperties = false ∧
    getDocumentSchema.additionalProperties = false ∧
    execute_validation_stage searchDocumentsSchema [("query", .str "test"), (k, v)] =
      .handlerRuns [("query", .str "test"), (k, v), ("limit", .int 10),
                    ("file_type", .null), ("sort_by", .str "relevance")] := by
  simp only [List.mem_cons, List.not_mem_nil, or_false, not_or] at hk
  obtain ⟨hk1, hk2, hk3, hk4⟩ := hk
  refine ⟨rfl, rfl, rfl, ?_⟩
  have hq1 : ¬ (("test" : String).length = 0) := by decide
  have hq2 : ¬ (500 < ("test" : String).length) := by decide
  simp [execute_validation_stage, validate_parameters, checkRequired,
    validateEachParam, applyDefaults, searchDocumentsSchema,
    validate_property_constraints, optCheck, guardE, pyIsInstanceType,
    JsonVal.asNum, bind, Except.bind, pure, Except.pure, hq1, hq2,
    hk1, hk2, hk3, hk4, Ne.symm hk1, Ne.symm hk2, Ne.symm hk3, Ne.symm hk4]

/-- Witness for C10 with the undeclared key `mystery`. -/
theorem C10_witness :
    ("mystery" : String) ∉ ["query", "limit", "file_type", "sort_by"] ∧
    (searchDocumentsSchema.additionalProperties = false ∧
     indexDocumentSchema.additionalProperties = false ∧
     getDocumentSchema.additionalProperties = false ∧
     execute_validation_stage searchDocumentsSchema
        [("query", .str "test"), ("mystery", .str "x")] =
      .handlerRuns [("query", .str "test"), ("mystery", .str "x"), ("limit", .int 10),
                    ("file_type", .null), ("sort_by", .str "relevance")]) :=
  ⟨by decide, C10_extra_parameter_passes_through "mystery" (.str "x") (by decide)⟩

end MyDoc

